import Mathlib

/-!
Verification of the ShuQ offer-negotiation and coupon-lifecycle engine.

Shallow embedding of the core of the repository:
  - `src/lib/offerLogs.ts` (offer ledger helpers)
  - `src/pages/Index.tsx`  (negotiation flow, coupon projection in the shopper view)
  - the admin dashboard component (coupon projection in the administrative view)

Conventions: JavaScript numbers carrying money are modelled exactly as rationals,
timestamps are unix milliseconds modelled as integers, attempt counters are
integers, and database text columns are strings. Randomness is modelled by
passing the random draws (the results of Math.random) as explicit arguments.
-/

/-- Offer status stored in a ledger row (offer_logs.offer_status in supabase.ts). -/
inductive OfferStatus where
  | pending
  | accepted
  | rejected
deriving DecidableEq

/-- Derived coupon status values used by both status consumers
(the strings pendiente / usado / cancelado in the source). -/
inductive CouponStatus where
  | pendiente
  | usado
  | cancelado
deriving DecidableEq

/-- Coupon type discriminator from the Coupon interface in Index.tsx
(the strings accepted / special-discount in the source). -/
inductive CouponType where
  | accepted
  | specialDiscount
deriving DecidableEq

/-- Product as used by the offer flow (Product interface in Index.tsx).
Display-only fields (description, image) are omitted. -/
structure Product where
  sku : String
  name : String
  price : ℚ
  maxDiscountPercentage : ℚ
deriving DecidableEq

/-- Ledger row (offer_logs Row type in supabase.ts). Timestamps in unix ms.
The display-only updated_at column is omitted. -/
structure OfferLogRow where
  id : String
  session_id : String
  product_sku : String
  product_name : String
  product_price : ℚ
  product_max_discount_percentage : ℚ
  offered_amount : ℚ
  offer_status : OfferStatus
  acceptance_code : Option String
  attempts_remaining : ℤ
  is_redeemed : Bool
  created_at : ℤ
  expires_at : Option ℤ
deriving DecidableEq

/-- Payload accepted by createOfferLog (offerLogs.ts lines 41-49). -/
structure OfferInsertData where
  product_sku : String
  product_name : String
  product_price : ℚ
  product_max_discount_percentage : ℚ
  offered_amount : ℚ
  offer_status : OfferStatus
  attempts_remaining : Option ℤ
deriving DecidableEq

/-- createOfferLog (offerLogs.ts lines 41-79) modelled as a pure row builder:
`now` is Date.now() at insert time, `code` is the value produced by
generateAcceptanceCode, `sessionId` and `idv` are assigned externally.
is_redeemed takes the database default false. -/
def createOfferLog (offerData : OfferInsertData) (sessionId idv : String)
    (now : ℤ) (code : String) : OfferLogRow :=
  { id := idv
    session_id := sessionId
    product_sku := offerData.product_sku
    product_name := offerData.product_name
    product_price := offerData.product_price
    product_max_discount_percentage := offerData.product_max_discount_percentage
    offered_amount := offerData.offered_amount
    offer_status := offerData.offer_status
    attempts_remaining := offerData.attempts_remaining.getD 3
    acceptance_code :=
      if offerData.offer_status = OfferStatus.accepted then some code else none
    is_redeemed := false
    created_at := now
    expires_at :=
      if offerData.offer_status = OfferStatus.accepted then some (now + 60 * 60 * 1000)
      else none }

/-- Update payload accepted by updateOfferLog (OfferLogUpdate type in supabase.ts);
a field set to none is absent from the update. -/
structure OfferLogUpdate where
  offer_status : Option OfferStatus := none
  acceptance_code : Option (Option String) := none
  attempts_remaining : Option ℤ := none
  is_redeemed : Option Bool := none
  expires_at : Option (Option ℤ) := none
deriving DecidableEq

/-- updateOfferLog (offerLogs.ts lines 82-99): applies the partial update to the
row with the given id; fields absent from the payload keep their values. -/
def updateOfferLog (row : OfferLogRow) (u : OfferLogUpdate) : OfferLogRow :=
  { row with
    offer_status := u.offer_status.getD row.offer_status
    acceptance_code := u.acceptance_code.getD row.acceptance_code
    attempts_remaining := u.attempts_remaining.getD row.attempts_remaining
    is_redeemed := u.is_redeemed.getD row.is_redeemed
    expires_at := u.expires_at.getD row.expires_at }

/-- markOfferAsRedeemed (offerLogs.ts lines 158-160). -/
def markOfferAsRedeemed (row : OfferLogRow) : OfferLogRow :=
  updateOfferLog row { is_redeemed := some true }

/-- isOfferExpired (offerLogs.ts lines 163-166): a row with no expiry is never
expired; otherwise expired when the expiry lies strictly before now. -/
def isOfferExpired (offer : OfferLogRow) (now : ℤ) : Bool :=
  match offer.expires_at with
  | none => false
  | some t => decide (t < now)

/-- getRemainingAttempts (offerLogs.ts lines 169-181). Its input is the result of
getProductOfferLogs: the rows for one (session, sku) pair ordered newest-first. -/
def getRemainingAttempts (logs : List OfferLogRow) : ℤ :=
  match logs with
  | [] => 3
  | mostRecentOffer :: _ =>
    if mostRecentOffer.offer_status = OfferStatus.accepted then 3
    else max 0 mostRecentOffer.attempts_remaining

/-- minAcceptablePrice from handleSendOffer (Index.tsx line 365). -/
def minAcceptablePrice (p : Product) : ℚ :=
  p.price * (1 - p.maxDiscountPercentage / 100)

/-- isAccepted from handleSendOffer (Index.tsx line 366). -/
def isOfferAccepted (p : Product) (offerPrice : ℚ) : Bool :=
  decide (minAcceptablePrice p ≤ offerPrice)

/-- newAttempts from handleSendOffer (Index.tsx line 367): acceptance keeps the
counter, rejection decrements it with no clamp. -/
def newAttempts (p : Product) (offerPrice : ℚ) (attemptsRemaining : ℤ) : ℤ :=
  if isOfferAccepted p offerPrice then attemptsRemaining else attemptsRemaining - 1

/-- The createOfferLog payload built by handleSendOffer (Index.tsx lines 371-379). -/
def handleSendOfferInsertData (p : Product) (offerPrice : ℚ)
    (attemptsRemaining : ℤ) : OfferInsertData :=
  { product_sku := p.sku
    product_name := p.name
    product_price := p.price
    product_max_discount_percentage := p.maxDiscountPercentage
    offered_amount := offerPrice
    offer_status :=
      if isOfferAccepted p offerPrice then OfferStatus.accepted else OfferStatus.rejected
    attempts_remaining := some (newAttempts p offerPrice attemptsRemaining) }

/-- The ledger row produced by one handleSendOffer submission. -/
def handleSendOfferRow (p : Product) (offerPrice : ℚ) (attemptsRemaining : ℤ)
    (sessionId idv : String) (now : ℤ) (code : String) : OfferLogRow :=
  createOfferLog (handleSendOfferInsertData p offerPrice attemptsRemaining)
    sessionId idv now code

/-- One ledger-level submission for a (session, sku) pair: the attempt budget is
read back through getRemainingAttempts and the new row becomes the most recent
(getProductOfferLogs orders newest-first). -/
def submitOffer (logs : List OfferLogRow) (p : Product) (offerPrice : ℚ)
    (sessionId idv : String) (now : ℤ) (code : String) : List OfferLogRow :=
  handleSendOfferRow p offerPrice (getRemainingAttempts logs) sessionId idv now code :: logs

/-- A sample product used by concrete witnesses: price 100000, hidden
max discount 50 percent, so the acceptance threshold is 50000. -/
def sampleProduct : Product :=
  { sku := "SKU1", name := "Camisa Blanca", price := 100000, maxDiscountPercentage := 50 }

/-- Coupon record (Coupon interface in Index.tsx lines 86-98). Fields that older
call sites leave undefined are Options; the display-only productImage field is
omitted. -/
structure Coupon where
  id : String
  productName : String
  offeredPrice : ℚ
  expiresAt : ℤ
  type : CouponType
  code : String
  discountPercentage : Option ℚ := none
  productSku : Option String := none
  status : Option CouponStatus := none
  createdAt : Option ℤ := none
  isRedeemed : Option Bool := none
deriving DecidableEq

/-- transformOfferLogToCoupon (offerLogs.ts lines 210-219): `now` stands for the
new Date() used when the row has no expiry. Note that it sets isRedeemed but
leaves the status and createdAt fields absent. -/
def transformOfferLogToCoupon (offerLog : OfferLogRow) (now : ℤ) : Coupon :=
  { id := offerLog.id
    productName := offerLog.product_name
    offeredPrice := offerLog.offered_amount
    expiresAt := offerLog.expires_at.getD now
    type := CouponType.accepted
    code := offerLog.acceptance_code.getD ""
    isRedeemed := some offerLog.is_redeemed }

/-- The coupon stored by handleSendOffer on a successful accepted append
(Index.tsx lines 383-389): the transformed row plus productSku, a stored
status pendiente and createdAt. -/
def handleSendOfferNewCoupon (p : Product) (offerLog : OfferLogRow) (now : ℤ) : Coupon :=
  { transformOfferLogToCoupon offerLog now with
    productSku := some p.sku
    status := some CouponStatus.pendiente
    createdAt := some now }

/-- The device-only fallback coupon built when the durable append throws
(Index.tsx lines 402-413); `code` is the value produced by generateCode. -/
def handleSendOfferFallbackCoupon (p : Product) (offerPrice : ℚ) (now : ℤ)
    (code : String) : Coupon :=
  { id := toString now
    productName := p.name
    offeredPrice := offerPrice
    expiresAt := now + 60 * 60 * 1000
    type := CouponType.accepted
    code := code
    productSku := some p.sku
    status := some CouponStatus.pendiente
    createdAt := some now }

/-- getCouponStatus in the shopper coupons screen (Index.tsx lines 1552-1564).
It tests the stored coupon.status field, never the isRedeemed flag. Coupons
derived through transformOfferLogToCoupon carry no createdAt, on which the
JavaScript code faults before producing a status; that case is modelled as none. -/
def getCouponStatusShopper (coupon : Coupon) (now : ℤ) : Option CouponStatus :=
  match coupon.createdAt with
  | none => none
  | some created =>
    let thirtyMinutesAfterCreation := created + 30 * 60 * 1000
    if coupon.status = some CouponStatus.usado then some CouponStatus.usado
    else if thirtyMinutesAfterCreation < now then some CouponStatus.cancelado
    else some CouponStatus.pendiente

/-- getCouponStatus in the admin dashboard component (lines 61-76 of the admin
source): none models the N/A result for non-accepted rows. -/
def getCouponStatusAdmin (log : OfferLogRow) (now : ℤ) : Option CouponStatus :=
  if log.offer_status ≠ OfferStatus.accepted then none
  else
    let thirtyMinutesAfterCreation := log.created_at + 30 * 60 * 1000
    if log.is_redeemed then some CouponStatus.usado
    else if thirtyMinutesAfterCreation < now then some CouponStatus.cancelado
    else some CouponStatus.pendiente

/-- The predicate of the existingOffer lookup (Index.tsx lines 1045-1049):
an unexpired coupon of type accepted for the given product sku. -/
def isActiveAcceptedFor (sku : String) (now : ℤ) (c : Coupon) : Bool :=
  decide (c.productSku = some sku ∧ c.type = CouponType.accepted ∧ now < c.expiresAt)

/-- existingOffer (Index.tsx lines 1044-1049). -/
def existingOffer (coupons : List Coupon) (sku : String) (now : ℤ) : Option Coupon :=
  coupons.find? (isActiveAcceptedFor sku now)

/-- Number of unexpired accepted coupons held for a product sku. -/
def activeAcceptedCount (coupons : List Coupon) (sku : String) (now : ℤ) : ℕ :=
  (coupons.filter (isActiveAcceptedFor sku now)).length

/-- One submission from the offer screen (Index.tsx lines 1194-1217 together with
handleSendOffer, lines 362-423): when existingOffer is present the Ofertar button
is not rendered, so nothing is submitted; otherwise an accepted offer appends one
accepted coupon, from the ledger row when the append succeeds (dbOk) or the
locally generated fallback otherwise, and a rejected offer appends nothing. -/
def offerScreenStep (coupons : List Coupon) (p : Product) (offerPrice : ℚ)
    (attempts : ℤ) (sessionId idv : String) (now : ℤ) (code : String)
    (dbOk : Bool) : List Coupon :=
  match existingOffer coupons p.sku now with
  | some _ => coupons
  | none =>
    if isOfferAccepted p offerPrice then
      coupons ++
        [if dbOk then
          handleSendOfferNewCoupon p
            (handleSendOfferRow p offerPrice attempts sessionId idv now code) now
        else handleSendOfferFallbackCoupon p offerPrice now code]
    else coupons

/-- Math.round on an exact rational argument. -/
def jsMathRound (x : ℚ) : ℤ := ⌊x + 1 / 2⌋

/-- The consolation coupon built by handleAcceptSpecialDiscount in the current
Index.tsx (lines 425-452): 15 percent off the price, a 30 minute expiry, and
deliberately the type accepted of a normal coupon. -/
def handleAcceptSpecialDiscountCoupon (p : Product) (now : ℤ) (code : String) : Coupon :=
  { id := toString now
    productName := p.name
    offeredPrice := (jsMathRound (p.price * (85 / 100)) : ℚ)
    expiresAt := now + 30 * 60 * 1000
    type := CouponType.accepted
    code := code
    productSku := some p.sku
    status := some CouponStatus.pendiente
    createdAt := some now }

/-- The consolation coupon of the older prototype (unnamed variant of Index.tsx,
lines 385-394): a distinct special-discount type carrying a fixed 15 percent. -/
def handleAcceptSpecialDiscountCouponLegacy (now : ℤ) (code : String) : Coupon :=
  { id := toString now
    productName := "Camisa Blanca"
    offeredPrice := 0
    expiresAt := now + 30 * 60 * 1000
    type := CouponType.specialDiscount
    code := code
    discountPercentage := some 15 }

/-- The result screen chosen after a decision (Index.tsx lines 1227-1546):
acceptance shows the coupon, a rejection with the budget at 0 forces the
consolation 15 percent screen whose only action is handleAcceptSpecialDiscount,
and any other rejection offers another attempt. -/
inductive ResultScreen where
  | acceptedScreen
  | specialDiscountOffer
  | tryAgainScreen
deriving DecidableEq

/-- Screen selection for a result (Index.tsx lines 1227, 1321, 1406-1546). -/
def resultScreen (accepted : Bool) (attemptsRemaining : ℤ) : ResultScreen :=
  if accepted then ResultScreen.acceptedScreen
  else if attemptsRemaining = 0 then ResultScreen.specialDiscountOffer
  else ResultScreen.tryAgainScreen

/-- The character set of generateAcceptanceCode (offerLogs.ts line 32). -/
def offerCodeChars : List Char := "ABCDEFGHIJKLMNOPQRSTUVWXYZ0123456789".data

/-- JavaScript charAt as used on the character set: a one character result in
range, the empty result otherwise. -/
def jsCharAt (s : List Char) (i : ℕ) : List Char :=
  match s.get? i with
  | some c => [c]
  | none => []

/-- generateAcceptanceCode (offerLogs.ts lines 31-38): eight iterations, each
appending chars.charAt(Math.floor(r * 36)) for a fresh random r in [0,1);
the draws are passed in as rands. -/
def generateAcceptanceCode (rands : List ℚ) : String :=
  String.mk (((rands.take 8).map
    (fun r => jsCharAt offerCodeChars (Int.toNat ⌊r * 36⌋))).flatten)

/-- Lowercase base-36 digit character as printed by Number.toString(36). -/
def base36DigitChar (d : ℕ) : Char :=
  if d < 10 then Char.ofNat (48 + d) else Char.ofNat (87 + d)

/-- String.toUpperCase on one character. -/
def jsToUpper (c : Char) : Char :=
  if 97 ≤ c.toNat ∧ c.toNat ≤ 122 then Char.ofNat (c.toNat - 32) else c

/-- The fractional base-36 digits of num/den as printed by Number.toString(36)
after the leading zero and point: the expansion stops at a zero remainder, so a
number with a short exact expansion prints fewer digits. fuel bounds recursion. -/
def base36FracDigits : ℕ → ℕ → ℕ → List ℕ
  | 0, _, _ => []
  | _ + 1, 0, _ => []
  | fuel + 1, num, den => 36 * num / den :: base36FracDigits fuel (36 * num % den) den

/-- generateCode (Index.tsx lines 347-349):
Math.random().toString(36).substr(2,8).toUpperCase(), where the random double is
k / 2^53 for some k < 2^53. -/
def generateCode (k : ℕ) : String :=
  String.mk (((base36FracDigits 60 k (2 ^ 53)).take 8).map
    (fun d => jsToUpper (base36DigitChar d)))

/-- A sample rejected ledger row (no acceptance code, no expiry). -/
def sampleRejectedRow : OfferLogRow :=
  { id := "o2", session_id := "s1", product_sku := "SKU1",
    product_name := "Camisa Blanca", product_price := 100000,
    product_max_discount_percentage := 50, offered_amount := 40000,
    offer_status := OfferStatus.rejected, acceptance_code := none,
    attempts_remaining := 2, is_redeemed := false, created_at := 0,
    expires_at := none }

/-- A sample accepted ledger row that the admin has marked redeemed. -/
def sampleRedeemedRow : OfferLogRow :=
  { id := "o1", session_id := "s1", product_sku := "SKU1",
    product_name := "Camisa Blanca", product_price := 100000,
    product_max_discount_percentage := 50, offered_amount := 60000,
    offer_status := OfferStatus.accepted, acceptance_code := some "ABCD1234",
    attempts_remaining := 3, is_redeemed := true, created_at := 0,
    expires_at := some 3600000 }

/-- Helper: the sample offer of 60000 clears the 50000 threshold. -/
theorem sample_accept_60000 : isOfferAccepted sampleProduct 60000 = true := by
  simp only [isOfferAccepted, minAcceptablePrice, sampleProduct, decide_eq_true_eq]
  norm_num

/-- Helper: the sample offer of 0 is below the 50000 threshold. -/
theorem sample_reject_0 : isOfferAccepted sampleProduct 0 = false := by
  simp only [isOfferAccepted, minAcceptablePrice, sampleProduct,
    decide_eq_false_iff_not]
  norm_num

/-- C1: for every product with positive price and max discount in [0,100] and
every proposed amount, the handleSendOffer decision marks the stored offer
accepted exactly when the offered amount is at least
price * (1 - maxDiscountPercentage / 100); money arithmetic is exact here, so
no floating-point rounding step is needed. -/
theorem offer_accepted_iff_meets_threshold (p : Product) (offerPrice : ℚ)
    (att : ℤ) (sessionId idv : String) (now : ℤ) (code : String)
    (hp : 0 < p.price) (h0 : 0 ≤ p.maxDiscountPercentage)
    (h1 : p.maxDiscountPercentage ≤ 100) :
    (handleSendOfferRow p offerPrice att sessionId idv now code).offer_status =
        OfferStatus.accepted ↔
      p.price * (1 - p.maxDiscountPercentage / 100) ≤ offerPrice := by
  unfold handleSendOfferRow createOfferLog handleSendOfferInsertData isOfferAccepted
    minAcceptablePrice
  by_cases h : p.price * (1 - p.maxDiscountPercentage / 100) ≤ offerPrice <;>
    simp [h]

/-- Witness for C1 at the sample product: an offer of 60000 against a threshold
of 50000 is stored accepted. -/
theorem offer_accepted_iff_meets_threshold_witness :
    (handleSendOfferRow sampleProduct 60000 3 "s1" "o1" 0 "ABCD1234").offer_status =
        OfferStatus.accepted :=
  (offer_accepted_iff_meets_threshold sampleProduct 60000 3 "s1" "o1" 0 "ABCD1234"
      (by norm_num [sampleProduct]) (by norm_num [sampleProduct])
      (by norm_num [sampleProduct])).mpr (by norm_num [sampleProduct])

/-- C2 counterexample: at attemptsRemainingBefore = 0 a rejected decision stores
-1, not max(0, 0 - 1) = 0, so the decision itself can go negative. -/
theorem attempts_clamp_counterexample :
    isOfferAccepted sampleProduct 0 = false ∧
    newAttempts sampleProduct 0 0 = -1 ∧
    newAttempts sampleProduct 0 0 ≠ max 0 (0 - 1) := by
  refine ⟨sample_reject_0, by simp [newAttempts, sample_reject_0], ?_⟩
  simp [newAttempts, sample_reject_0]

/-- C2 amended: acceptance leaves the budget unchanged; rejection stores
attemptsRemainingBefore - 1 with no clamp, which coincides with
max(0, before - 1) whenever before is at least 1 (the clamp to 0 is applied
later, at read time, by getRemainingAttempts). -/
theorem attempts_after_decision (p : Product) (offerPrice : ℚ) (att : ℤ) :
    (isOfferAccepted p offerPrice = true → newAttempts p offerPrice att = att) ∧
    (isOfferAccepted p offerPrice = false → newAttempts p offerPrice att = att - 1) ∧
    (1 ≤ att → isOfferAccepted p offerPrice = false →
      newAttempts p offerPrice att = max 0 (att - 1)) := by
  unfold newAttempts
  refine ⟨fun h => by simp [h], fun h => by simp [h], fun hatt h => ?_⟩
  simp [h]
  omega

/-- Witness for C2 amended at concrete inputs: an accepted offer keeps 3, a
rejection from 2 stores 1, and a rejection from 1 stores max(0, 0) = 0. -/
theorem attempts_after_decision_witness :
    newAttempts sampleProduct 60000 3 = 3 ∧
    newAttempts sampleProduct 0 2 = 2 - 1 ∧
    newAttempts sampleProduct 0 1 = max 0 (1 - 1) :=
  ⟨(attempts_after_decision sampleProduct 60000 3).1 sample_accept_60000,
    (attempts_after_decision sampleProduct 0 2).2.1 sample_reject_0,
    (attempts_after_decision sampleProduct 0 1).2.2 (by norm_num) sample_reject_0⟩

/-- C9: markOfferAsRedeemed is idempotent and its whole effect is setting
is_redeemed to true, every other column of the row being kept. -/
theorem markOfferAsRedeemed_idempotent (row : OfferLogRow) :
    markOfferAsRedeemed (markOfferAsRedeemed row) = markOfferAsRedeemed row ∧
    markOfferAsRedeemed row = { row with is_redeemed := true } :=
  ⟨rfl, rfl⟩

/-- C10: a ledger row whose expires_at is null is never considered expired,
whatever the current time. -/
theorem no_expiry_never_expired (offer : OfferLogRow) (now : ℤ)
    (h : offer.expires_at = none) : isOfferExpired offer now = false := by
  simp [isOfferExpired, h]

/-- Witness for C10: the sample rejected row has no expiry and is not expired
even at a very late read time. -/
theorem no_expiry_never_expired_witness :
    sampleRejectedRow.expires_at = none ∧
    isOfferExpired sampleRejectedRow 99999999999 = false :=
  ⟨rfl, no_expiry_never_expired sampleRejectedRow 99999999999 rfl⟩

/-- Helper: a rejected submission stores the decremented budget and the read-back
value is the clamp of that. -/
theorem getRemainingAttempts_submit_rejected (logs : List OfferLogRow)
    (p : Product) (offerPrice : ℚ) (sessionId idv : String) (now : ℤ)
    (code : String) (h : isOfferAccepted p offerPrice = false) :
    getRemainingAttempts (submitOffer logs p offerPrice sessionId idv now code) =
      max 0 (getRemainingAttempts logs - 1) := by
  simp [submitOffer, handleSendOfferRow, createOfferLog, handleSendOfferInsertData,
    getRemainingAttempts, newAttempts, h]

/-- C3: getRemainingAttempts returns 3 on no prior rows, 3 when the most recent
row is accepted, and otherwise the most recent attempts_remaining clamped to be
nonnegative; consequently a rejected submission drops the read-back budget from
r to max(0, r - 1) (3 to 2 on the first rejection, 0 after three, then stuck at
0 under further rejections) and an accepted submission restores 3. -/
theorem remaining_attempts_spec :
    getRemainingAttempts [] = 3 ∧
    (∀ r rest, r.offer_status = OfferStatus.accepted →
      getRemainingAttempts (r :: rest) = 3) ∧
    (∀ r rest, r.offer_status ≠ OfferStatus.accepted →
      getRemainingAttempts (r :: rest) = max 0 r.attempts_remaining) ∧
    (∀ logs p offerPrice sessionId idv now code,
      isOfferAccepted p offerPrice = false →
      getRemainingAttempts (submitOffer logs p offerPrice sessionId idv now code) =
        max 0 (getRemainingAttempts logs - 1)) ∧
    (∀ logs p offerPrice sessionId idv now code,
      isOfferAccepted p offerPrice = true →
      getRemainingAttempts (submitOffer logs p offerPrice sessionId idv now code) = 3) ∧
    (∀ logs p offerPrice sessionId idv now code,
      isOfferAccepted p offerPrice = false →
      getRemainingAttempts logs = 0 →
      getRemainingAttempts (submitOffer logs p offerPrice sessionId idv now code) = 0) ∧
    (∀ p offerPrice s1 s2 s3 i1 i2 i3 n1 n2 n3 c1 c2 c3,
      isOfferAccepted p offerPrice = false →
      getRemainingAttempts
        (submitOffer (submitOffer (submitOffer [] p offerPrice s1 i1 n1 c1)
          p offerPrice s2 i2 n2 c2) p offerPrice s3 i3 n3 c3) = 0) := by
  refine ⟨rfl, ?_, ?_, ?_, ?_, ?_, ?_⟩
  · intro r rest h
    simp [getRemainingAttempts, h]
  · intro r rest h
    simp [getRemainingAttempts, h]
  · intro logs p offerPrice sessionId idv now code h
    exact getRemainingAttempts_submit_rejected logs p offerPrice sessionId idv now code h
  · intro logs p offerPrice sessionId idv now code h
    simp [submitOffer, handleSendOfferRow, createOfferLog, handleSendOfferInsertData,
      getRemainingAttempts, h]
  · intro logs p offerPrice sessionId idv now code h h0
    rw [getRemainingAttempts_submit_rejected logs p offerPrice sessionId idv now code h, h0]
    rfl
  · intro p offerPrice s1 s2 s3 i1 i2 i3 n1 n2 n3 c1 c2 c3 h
    rw [getRemainingAttempts_submit_rejected _ p offerPrice s3 i3 n3 c3 h,
      getRemainingAttempts_submit_rejected _ p offerPrice s2 i2 n2 c2 h,
      getRemainingAttempts_submit_rejected _ p offerPrice s1 i1 n1 c1 h]
    rfl

/-- Witness for C3: three consecutive rejected offers of 0 against the sample
product drive the read-back budget from 3 to 2, then 0, a fourth rejection
keeps it at 0, and an accepted row at the head restores 3. -/
theorem remaining_attempts_spec_witness :
    getRemainingAttempts (submitOffer [] sampleProduct 0 "s1" "o1" 0 "C1") =
      max 0 (getRemainingAttempts [] - 1) ∧
    getRemainingAttempts
      (submitOffer (submitOffer (submitOffer [] sampleProduct 0 "s1" "o1" 0 "C1")
        sampleProduct 0 "s1" "o2" 1 "C2") sampleProduct 0 "s1" "o3" 2 "C3") = 0 ∧
    getRemainingAttempts (submitOffer [] sampleProduct 60000 "s1" "o4" 3 "C4") = 3 ∧
    getRemainingAttempts (sampleRedeemedRow :: [sampleRejectedRow]) = 3 ∧
    getRemainingAttempts (sampleRejectedRow :: []) = max 0 sampleRejectedRow.attempts_remaining :=
  ⟨(remaining_attempts_spec.2.2.2.1) [] sampleProduct 0 "s1" "o1" 0 "C1" sample_reject_0,
    (remaining_attempts_spec.2.2.2.2.2.2) sampleProduct 0 "s1" "s1" "s1" "o1" "o2" "o3"
      0 1 2 "C1" "C2" "C3" sample_reject_0,
    (remaining_attempts_spec.2.2.2.2.1) [] sampleProduct 60000 "s1" "o4" 3 "C4"
      sample_accept_60000,
    (remaining_attempts_spec.2.1) sampleRedeemedRow [sampleRejectedRow] rfl,
    (remaining_attempts_spec.2.2.1) sampleRejectedRow [] (by simp [sampleRejectedRow])⟩

/-- C4: evaluation at the failing input. For an accepted row already marked
redeemed and read ten minutes after creation, the administrative view derives
usado from is_redeemed, as the claim states, but the shopper coupons view tests
only the stored coupon.status field: on the coupon obtained from the row through
transformOfferLogToCoupon it produces no usado status (that transform does not
even carry createdAt), and on the locally stored coupon, whose status field was
frozen at pendiente on creation, it still answers pendiente. -/
theorem coupon_status_consumers_disagree :
    getCouponStatusAdmin sampleRedeemedRow 600000 = some CouponStatus.usado ∧
    getCouponStatusShopper (transformOfferLogToCoupon sampleRedeemedRow 600000) 600000 ≠
      some CouponStatus.usado ∧
    getCouponStatusShopper
      { transformOfferLogToCoupon sampleRedeemedRow 600000 with
        status := some CouponStatus.pendiente, createdAt := some 0 } 600000 =
      some CouponStatus.pendiente := by
  refine ⟨rfl, ?_, rfl⟩
  intro h
  simp [getCouponStatusShopper, transformOfferLogToCoupon, sampleRedeemedRow] at h

/-- C5: a row built by createOfferLog carries an acceptance code exactly when its
status is accepted, and an expiry exactly when its status is accepted, in which
case the expiry is the creation time plus one hour (3600000 ms). -/
theorem created_row_code_and_expiry (offerData : OfferInsertData)
    (sessionId idv : String) (now : ℤ) (code : String) :
    ((createOfferLog offerData sessionId idv now code).acceptance_code ≠ none ↔
      (createOfferLog offerData sessionId idv now code).offer_status =
        OfferStatus.accepted) ∧
    ((createOfferLog offerData sessionId idv now code).expires_at ≠ none ↔
      (createOfferLog offerData sessionId idv now code).offer_status =
        OfferStatus.accepted) ∧
    ((createOfferLog offerData sessionId idv now code).expires_at =
      if (createOfferLog offerData sessionId idv now code).offer_status =
          OfferStatus.accepted then
        some ((createOfferLog offerData sessionId idv now code).created_at + 60 * 60 * 1000)
      else none) := by
  by_cases h : offerData.offer_status = OfferStatus.accepted <;>
    simp [createOfferLog, h]

/-- C7 counterexample: the consolation coupon built by the current
handleAcceptSpecialDiscount carries the very type accepted used by a normal
accepted-offer coupon, so its type is not distinct. -/
theorem special_discount_type_counterexample :
    (handleAcceptSpecialDiscountCoupon sampleProduct 0 "CODE1234").type =
      (handleSendOfferNewCoupon sampleProduct
        (handleSendOfferRow sampleProduct 60000 3 "s1" "o1" 0 "ABCD1234") 0).type ∧
    (handleAcceptSpecialDiscountCoupon sampleProduct 0 "CODE1234").type =
      CouponType.accepted :=
  ⟨rfl, rfl⟩

/-- C7 amended: when a rejection leaves the budget at 0 the result screen forces
the consolation offer; accepting it yields a coupon for 85 percent of the price
rounded as Math.round (so 15 percent off up to half a currency unit), valid 30
minutes, but created with the same type accepted as a normal coupon — only the
older prototype used the distinct special-discount type carrying a fixed 15. -/
theorem special_discount_coupon_spec (p : Product) (now : ℤ) (code : String) :
    resultScreen false 0 = ResultScreen.specialDiscountOffer ∧
    |((handleAcceptSpecialDiscountCoupon p now code).offeredPrice -
        p.price * (85 / 100))| ≤ 1 / 2 ∧
    (handleAcceptSpecialDiscountCoupon p now code).expiresAt = now + 30 * 60 * 1000 ∧
    (handleAcceptSpecialDiscountCoupon p now code).type = CouponType.accepted ∧
    (handleAcceptSpecialDiscountCouponLegacy now code).type = CouponType.specialDiscount ∧
    (handleAcceptSpecialDiscountCouponLegacy now code).type ≠ CouponType.accepted ∧
    (handleAcceptSpecialDiscountCouponLegacy now code).discountPercentage = some 15 := by
  refine ⟨rfl, ?_, rfl, rfl, rfl, fun h => CouponType.noConfusion h, rfl⟩
  have h1 : ((jsMathRound (p.price * (85 / 100))) : ℚ) ≤ p.price * (85 / 100) + 1 / 2 := by
    unfold jsMathRound
    exact_mod_cast Int.floor_le (p.price * (85 / 100) + 1 / 2)
  have h2 : p.price * (85 / 100) + 1 / 2 - 1 <
      ((jsMathRound (p.price * (85 / 100))) : ℚ) := by
    unfold jsMathRound
    have := Int.lt_floor_add_one (p.price * (85 / 100) + 1 / 2)
    linarith
  rw [abs_le]
  constructor <;> simp [handleAcceptSpecialDiscountCoupon] at h1 h2 ⊢ <;> linarith

/-- A sample unexpired accepted coupon held for the sample product. -/
def sampleActiveCoupon : Coupon :=
  { id := "c1", productName := "Camisa Blanca", offeredPrice := 60000,
    expiresAt := 3600000, type := CouponType.accepted, code := "ABCD1234",
    productSku := some "SKU1", status := some CouponStatus.pendiente,
    createdAt := some 0, isRedeemed := some false }

/-- C6: while an unexpired accepted coupon exists for the product the offer
screen submits nothing (the list of coupons is unchanged), and one offer-screen
step never grows the number of unexpired accepted coupons for the product past
one: the guard admits a submission only when that number is zero, and a
submission appends at most one accepted coupon. -/
theorem single_active_accepted_offer (coupons : List Coupon) (p : Product)
    (offerPrice : ℚ) (att : ℤ) (sessionId idv : String) (now : ℤ)
    (code : String) (dbOk : Bool) :
    (∀ c, existingOffer coupons p.sku now = some c →
      offerScreenStep coupons p offerPrice att sessionId idv now code dbOk =
        coupons) ∧
    (activeAcceptedCount coupons p.sku now ≤ 1 →
      activeAcceptedCount
        (offerScreenStep coupons p offerPrice att sessionId idv now code dbOk)
        p.sku now ≤ 1) := by
  constructor
  · intro c hc
    unfold offerScreenStep
    rw [hc]
  · intro hle
    unfold offerScreenStep
    cases hfind : existingOffer coupons p.sku now with
    | some c => exact hle
    | none =>
      have hzero : activeAcceptedCount coupons p.sku now = 0 := by
        unfold activeAcceptedCount
        unfold existingOffer at hfind
        rw [List.length_eq_zero, List.filter_eq_nil_iff]
        intro a ha
        exact List.find?_eq_none.mp hfind a ha
      by_cases hacc : isOfferAccepted p offerPrice
      · rw [hacc]
        simp only [if_true]
        unfold activeAcceptedCount at hzero ⊢
        rw [List.filter_append, List.length_append, hzero]
        simpa using List.length_filter_le (isActiveAcceptedFor p.sku now) _
      · simp only [hacc, if_false]
        exact hle

/-- Witness for C6: with the sample active coupon held, the step changes
nothing; from an empty wallet the step keeps the count at most one. -/
theorem single_active_accepted_offer_witness :
    offerScreenStep [sampleActiveCoupon] sampleProduct 60000 3 "s1" "o1" 0 "C1"
        true = [sampleActiveCoupon] ∧
    activeAcceptedCount
      (offerScreenStep [] sampleProduct 60000 3 "s1" "o1" 0 "C1" true)
      sampleProduct.sku 0 ≤ 1 :=
  ⟨(single_active_accepted_offer [sampleActiveCoupon] sampleProduct 60000 3 "s1"
      "o1" 0 "C1" true).1 sampleActiveCoupon
      (by simp [existingOffer, isActiveAcceptedFor, sampleActiveCoupon, sampleProduct]),
    (single_active_accepted_offer [] sampleProduct 60000 3 "s1" "o1" 0 "C1"
      true).2 (by simp [activeAcceptedCount])⟩

/-- Helper: a draw in [0,1) picks exactly one character of the 36 character set. -/
theorem jsCharAt_draw (r : ℚ) (h1 : r < 1) :
    (jsCharAt offerCodeChars (Int.toNat ⌊r * 36⌋)).length = 1 ∧
    ∀ c ∈ jsCharAt offerCodeChars (Int.toNat ⌊r * 36⌋), c ∈ offerCodeChars := by
  have h36 : Int.toNat ⌊r * 36⌋ < 36 := by
    have hf : ⌊r * 36⌋ < 36 := by
      apply Int.floor_lt.mpr
      push_cast
      nlinarith
    omega
  have hlen : offerCodeChars.length = 36 := rfl
  cases hg : offerCodeChars.get? (Int.toNat ⌊r * 36⌋) with
  | none =>
    exfalso
    rw [List.get?_eq_none] at hg
    omega
  | some c =>
    unfold jsCharAt
    rw [hg]
    exact ⟨rfl, fun x hx => by
      rw [List.mem_singleton] at hx
      subst hx
      exact List.get?_mem hg⟩

/-- Helper: the eight selected blocks flatten to one character per draw, all
from the character set. -/
theorem acceptanceCode_blocks (l : List ℚ) (h : ∀ r ∈ l, 0 ≤ r ∧ r < 1) :
    ((l.map fun r => jsCharAt offerCodeChars (Int.toNat ⌊r * 36⌋)).flatten).length =
      l.length ∧
    ∀ c ∈ (l.map fun r => jsCharAt offerCodeChars (Int.toNat ⌊r * 36⌋)).flatten,
      c ∈ offerCodeChars := by
  induction l with
  | nil => simp
  | cons r t ih =>
    have hr := h r (List.mem_cons_self r t)
    have ht := ih fun x hx => h x (List.mem_cons_of_mem r hx)
    have hb := jsCharAt_draw r hr.2
    refine ⟨?_, ?_⟩
    · simp only [List.map_cons, List.flatten_cons, List.length_append, hb.1, ht.1,
        List.length_cons]
      omega
    · intro c hc
      simp only [List.map_cons, List.flatten_cons, List.mem_append] at hc
      cases hc with
      | inl hc => exact hb.2 c hc
      | inr hc => exact ht.2 c hc

/-- Helper: every digit of a proper fraction in base 36 is below 36. -/
theorem base36FracDigits_lt (fuel : ℕ) :
    ∀ num den, num < den → ∀ d ∈ base36FracDigits fuel num den, d < 36 := by
  induction fuel with
  | zero =>
    intro num den _ d hd
    simp [base36FracDigits] at hd
  | succ n ih =>
    intro num den h d hd
    have hden : 0 < den := lt_of_le_of_lt (Nat.zero_le _) h
    cases num with
    | zero => simp [base36FracDigits] at hd
    | succ m =>
      have hd2 : d ∈ 36 * (m + 1) / den ::
          base36FracDigits n (36 * (m + 1) % den) den := hd
      rcases List.mem_cons.mp hd2 with hd2 | hd2
      · subst hd2
        rw [Nat.div_lt_iff_lt_mul hden]
        omega
      · exact ih (36 * (m + 1) % den) den (Nat.mod_lt _ hden) d hd2

/-- Helper: every base-36 digit below 36, printed lowercase by toString(36) and
then uppercased, lands in the acceptance-code character set. -/
theorem upper_digit_mem (d : ℕ) (h : d < 36) :
    jsToUpper (base36DigitChar d) ∈ offerCodeChars := by
  revert h
  revert d
  decide

/-- C8 counterexample: Math.random can return one half (2^52 / 2^53), whose
base-36 printout after the point is the single digit i, so the locally
generated fallback coupon code is the one character string I — not the
8 characters the ledger always produces. -/
theorem fallback_code_shape_counterexample :
    (handleSendOfferFallbackCoupon sampleProduct 60000 0
      (generateCode (2 ^ 52))).code.length ≠ 8 := by
  decide

/-- C8 amended: on a failed durable append the caller still stores a device-only
coupon whose expiry is creation time plus one hour, exactly like an accepted
ledger row; its code characters are drawn from the same A-Z0-9 set, but the code
is the base-36 printout of a single random draw, so it only has up to 8
characters (and is not uniform), whereas generateAcceptanceCode always yields
exactly 8 characters of that set. -/
theorem fallback_coupon_shape :
    (∀ rands : List ℚ, rands.length = 8 → (∀ r ∈ rands, 0 ≤ r ∧ r < 1) →
      (generateAcceptanceCode rands).length = 8 ∧
      ∀ c ∈ (generateAcceptanceCode rands).data, c ∈ offerCodeChars) ∧
    (∀ k : ℕ, (generateCode k).length ≤ 8 ∧
      (k < 2 ^ 53 → ∀ c ∈ (generateCode k).data, c ∈ offerCodeChars)) ∧
    (∀ p offerPrice now code,
      (handleSendOfferFallbackCoupon p offerPrice now code).expiresAt =
        now + 60 * 60 * 1000) ∧
    (∀ offerData sessionId idv now code,
      offerData.offer_status = OfferStatus.accepted →
      (createOfferLog offerData sessionId idv now code).expires_at =
        some (now + 60 * 60 * 1000)) := by
  refine ⟨?_, ?_, fun p offerPrice now code => rfl, ?_⟩
  · intro rands hlen hb
    have htake : rands.take 8 = rands := by
      rw [← hlen]
      exact List.take_length rands
    have hblocks := acceptanceCode_blocks rands hb
    unfold generateAcceptanceCode
    rw [htake]
    exact ⟨by
        rw [show (String.mk ((rands.map fun r =>
            jsCharAt offerCodeChars (Int.toNat ⌊r * 36⌋)).flatten)).length =
          ((rands.map fun r =>
            jsCharAt offerCodeChars (Int.toNat ⌊r * 36⌋)).flatten).length from rfl]
        rw [hblocks.1, hlen],
      fun c hc => hblocks.2 c hc⟩
  · intro k
    constructor
    · unfold generateCode
      rw [show (String.mk (((base36FracDigits 60 k (2 ^ 53)).take 8).map
          (fun d => jsToUpper (base36DigitChar d)))).length =
        (((base36FracDigits 60 k (2 ^ 53)).take 8).map
          (fun d => jsToUpper (base36DigitChar d))).length from rfl]
      rw [List.length_map]
      exact List.length_take_le 8 _
    · intro hk c hc
      unfold generateCode at hc
      rw [show (String.mk (((base36FracDigits 60 k (2 ^ 53)).take 8).map
          (fun d => jsToUpper (base36DigitChar d)))).data =
        (((base36FracDigits 60 k (2 ^ 53)).take 8).map
          (fun d => jsToUpper (base36DigitChar d))) from rfl] at hc
      rcases List.mem_map.mp hc with ⟨d, hd, rfl⟩
      have hd36 : d < 36 :=
        base36FracDigits_lt 60 k (2 ^ 53) hk d (List.mem_of_mem_take hd)
      exact upper_digit_mem d hd36
  · intro offerData sessionId idv now code h
    simp [createOfferLog, h]

/-- Witness for C8 amended: eight zero draws give the ledger code AAAAAAAA of
length 8; the fallback code for the draw 2^52 / 2^53 stays within shape bounds;
both the fallback coupon and an accepted ledger row expire one hour after
creation. -/
theorem fallback_coupon_shape_witness :
    ((generateAcceptanceCode (List.replicate 8 0)).length = 8 ∧
      ∀ c ∈ (generateAcceptanceCode (List.replicate 8 0)).data, c ∈ offerCodeChars) ∧
    ((generateCode (2 ^ 52)).length ≤ 8 ∧
      ∀ c ∈ (generateCode (2 ^ 52)).data, c ∈ offerCodeChars) ∧
    (handleSendOfferFallbackCoupon sampleProduct 60000 0 "I").expiresAt =
      0 + 60 * 60 * 1000 ∧
    (createOfferLog (handleSendOfferInsertData sampleProduct 60000 3)
      "s1" "o1" 0 "ABCD1234").expires_at = some (0 + 60 * 60 * 1000) :=
  ⟨fallback_coupon_shape.1 (List.replicate 8 0) (by simp)
      (fun r hr => by
        rw [List.eq_of_mem_replicate hr]
        norm_num),
    ⟨(fallback_coupon_shape.2.1 (2 ^ 52)).1,
      (fallback_coupon_shape.2.1 (2 ^ 52)).2 (by norm_num)⟩,
    fallback_coupon_shape.2.2.1 sampleProduct 60000 0 "I",
    fallback_coupon_shape.2.2.2 (handleSendOfferInsertData sampleProduct 60000 3)
      "s1" "o1" 0 "ABCD1234"
      (by simp [handleSendOfferInsertData, sample_accept_60000])⟩
